import Mathlib

/-!
Verification of the auto_tmpdir SPANK plugin (temporary-directory lifecycle
engine).  The repository contains two variants of the plugin:

* the current variant (shared-storage aware, `job_` / `step_` naming,
  privilege drop around filesystem work), embedded in namespace `AutoTmpdir`;
* an older variant (plain numeric directory names, owner-UID-checked
  recursive removal), embedded in namespace `AutoTmpdirV0`.

Filesystem and process state (the `access(2)` probe, `stat(2)` / `mkdir(2)`
results, `gethostname(2)`, `seteuid(2)` / `setegid(2)` outcomes) are supplied
to the embedded functions as explicit oracle parameters; machine integers
(`uint32_t` job/step/task identifiers, uids/gids) are embedded as `Nat`.
-/

namespace AutoTmpdir

/-- Reserved step-id sentinel `SLURM_BATCH_SCRIPT` from `<slurm/slurm.h>`. -/
def SLURM_BATCH_SCRIPT : Nat := 0xfffffffb

/-- Reserved step-id sentinel `SLURM_EXTERN_CONT` from `<slurm/slurm.h>`. -/
def SLURM_EXTERN_CONT : Nat := 0xfffffffc

/-- Buffer capacity `PATH_MAX` used for every `char [PATH_MAX]` path buffer. -/
def PATH_MAX : Nat := 4096

/-- The process-wide configuration flags of the plugin
(`base_tmpdir`, `should_remove_tmpdir`, `should_create_per_step_tmpdirs`,
`should_create_on_shared`, `should_add_pernode_on_shared`), gathered into one
record.  The source keeps them as file-scope globals mutated only by the
`_opt_*` option callbacks. -/
structure Policy where
  base_tmpdir : Option String
  should_remove_tmpdir : Bool
  should_create_per_step_tmpdirs : Bool
  should_create_on_shared : Bool
  should_add_pernode_on_shared : Bool
deriving DecidableEq, Repr

/-- Initial values of the five globals before any option callback runs. -/
def defaultPolicy : Policy :=
  { base_tmpdir := none
    should_remove_tmpdir := true
    should_create_per_step_tmpdirs := true
    should_create_on_shared := false
    should_add_pernode_on_shared := false }

/-- The built-in `default_tmpdir_prefix` constant, `"/tmp"`. -/
def defaultTmpdir : String := "/tmp"

/-- Which of the three base candidates `_get_base_tmpdir` settled on.  The
source distinguishes them by pointer identity (`path == base_tmpdir`,
`path == shared_tmpdir_prefix`), so provenance is tracked explicitly here. -/
inductive BaseChoice where
  | fromOpt (b : String)
  | fromShared
  | fromDefault
deriving DecidableEq, Repr

/-- String a `BaseChoice` denotes; `shared` is the build-time
`XSTR(SHARED_STORAGE_PATH)` value. -/
def baseChoiceStr (shared : String) : BaseChoice → String
  | BaseChoice.fromOpt b => b
  | BaseChoice.fromShared => shared
  | BaseChoice.fromDefault => defaultTmpdir

/-- Embedding of `_get_base_tmpdir` (current variant, shared storage compiled
in).  `access` is the `access(path, R_OK|W_OK|X_OK) == 0` probe.  The result
carries the chosen candidate and the `had_initial_error` flag (true when at
least one earlier candidate was rejected, i.e. a fallback occurred); `none`
models the `return NULL` hard failure after all candidates were rejected.
The `retry_test` goto loop of the source is unrolled: an explicit base falls
back to the shared prefix when `--use-shared-tmpdir` was given, otherwise to
the default prefix, and the shared prefix falls back to the default prefix. -/
def _get_base_tmpdir (pol : Policy) (shared : String) (access : String → Bool) :
    Option (BaseChoice × Bool) :=
  match pol.base_tmpdir with
  | some b =>
    if access b then some (BaseChoice.fromOpt b, false)
    else if pol.should_create_on_shared then
      if access shared then some (BaseChoice.fromShared, true)
      else if access defaultTmpdir then some (BaseChoice.fromDefault, true)
      else none
    else if access defaultTmpdir then some (BaseChoice.fromDefault, true)
    else none
  | none =>
    if pol.should_create_on_shared then
      if access shared then some (BaseChoice.fromShared, false)
      else if access defaultTmpdir then some (BaseChoice.fromDefault, true)
      else none
    else if access defaultTmpdir then some (BaseChoice.fromDefault, false)
    else none

/-- The candidate base directories in the order `_get_base_tmpdir` probes
them: explicit configured base, then the shared-storage path when shared
storage was requested, then the built-in default. -/
def baseCandidates (pol : Policy) (shared : String) : List String :=
  (match pol.base_tmpdir with
   | some b => [b]
   | none => []) ++
  (if pol.should_create_on_shared then [shared] else []) ++
  [defaultTmpdir]

/-- Short hostname used for per-node sub-directories: `gethostname` into a
64-byte buffer, then NUL-terminate at the first dot (or at the end of the
buffer). -/
def shortHostname (h : String) : String :=
  String.mk ((h.toList.take 63).takeWhile (fun c => c ≠ '.'))

/-- Format string `job_dir_sprintf_format`, i.e. `"%s/job_%u"`. -/
def job_dir_format (base : String) (job_id : Nat) : String :=
  base ++ "/job_" ++ Nat.repr job_id

/-- Format string `job_step_dir_sprintf_format`, i.e. `"%s/job_%u/step_%u.%u"`. -/
def job_step_dir_format (base : String) (job_id step_id task_id : Nat) : String :=
  base ++ "/job_" ++ Nat.repr job_id ++ "/step_" ++ Nat.repr step_id ++ "." ++ Nat.repr task_id

/-- Format string `pernode_job_dir_sprintf_format`, i.e. `"%s/job_%u/%s"`. -/
def pernode_job_dir_format (base : String) (job_id : Nat) (host : String) : String :=
  base ++ "/job_" ++ Nat.repr job_id ++ "/" ++ host

/-- Format string `pernode_job_step_dir_sprintf_format`, i.e.
`"%s/job_%u/%s/step_%u.%u"`. -/
def pernode_job_step_dir_format (base : String) (job_id : Nat) (host : String)
    (step_id task_id : Nat) : String :=
  base ++ "/job_" ++ Nat.repr job_id ++ "/" ++ host ++ "/step_" ++ Nat.repr step_id ++
    "." ++ Nat.repr task_id

/-- The test `(job_step_id == SLURM_BATCH_SCRIPT) || (job_step_id == SLURM_EXTERN_CONT)`
used throughout the source. -/
def isPseudoStep (step_id : Nat) : Bool :=
  step_id == SLURM_BATCH_SCRIPT || step_id == SLURM_EXTERN_CONT

/-- Embedding of `_sprint_tmpdir`.  `hostname` is what `gethostname` reports;
`buffer_capacity` is the caller's buffer size (`PATH_MAX` at every call site).
On success the result carries the formatted path together with the base
actually used (the `*tmpdir_prefix` out-parameter); `none` models the `-1`
return (base selection failed, or the `snprintf` result did not satisfy
`0 < actual_len < buffer_capacity`). -/
def _sprint_tmpdir (pol : Policy) (shared hostname : String) (access : String → Bool)
    (buffer_capacity job_id job_step_id local_task_id : Nat) (ignore_pernode : Bool) :
    Option (String × String) :=
  match _get_base_tmpdir pol shared access with
  | none => none
  | some (c, _) =>
    let tmpdir := baseChoiceStr shared c
    let s :=
      if c = BaseChoice.fromShared ∧ pol.should_add_pernode_on_shared = true then
        let host := shortHostname hostname
        if ¬ pol.should_create_per_step_tmpdirs = true ∨ isPseudoStep job_step_id = true then
          if ignore_pernode then job_dir_format tmpdir job_id
          else pernode_job_dir_format tmpdir job_id host
        else pernode_job_step_dir_format tmpdir job_id host job_step_id local_task_id
      else
        if ¬ pol.should_create_per_step_tmpdirs = true ∨ isPseudoStep job_step_id = true then
          job_dir_format tmpdir job_id
        else job_step_dir_format tmpdir job_id job_step_id local_task_id
    if 0 < s.length ∧ s.length < buffer_capacity then some (s, tmpdir) else none

example :
    _sprint_tmpdir defaultPolicy "/shared" "node01" (fun _ => true) 4096 100 0 2 false =
      some ("/tmp/job_100/step_0.2", "/tmp") := by rfl

example :
    _sprint_tmpdir defaultPolicy "/shared" "node01" (fun _ => true) 4096 100
      SLURM_BATCH_SCRIPT 2 false = some ("/tmp/job_100", "/tmp") := by rfl

example :
    _sprint_tmpdir (Policy.mk none true true true true) "/lustre" "node07.cluster.example"
      (fun _ => true) 4096 100 3 2 false =
      some ("/lustre/job_100/node07/step_3.2", "/lustre") := by rfl

/-- Result of a `stat(2)` call on a path: the path is a directory, exists but
is not a directory, or does not exist (`stat` returned nonzero). -/
inductive StatRes where
  | isDir
  | isOther
  | absent
deriving DecidableEq, Repr

/-- Result of a `mkdir(path, 0700)` call: success, failure with
`errno == EEXIST`, or failure with any other `errno`. -/
inductive MkdirRes where
  | ok
  | eexist
  | err
deriving DecidableEq, Repr

/-- Oracle answering the filesystem calls issued by `_mktmpdir`.  Answers are
indexed by a call counter (the first argument) so that the state observed by
consecutive calls may change, which is how concurrent creators racing with
the walk are expressed. -/
structure FsOracle where
  stat : Nat → String → StatRes
  mkdir : Nat → String → MkdirRes

/-- One iteration of the `while ( outTmpDir[i] == '/' )` loop body of
`_mktmpdir`: `stat` the prefix; an existing directory is fine, an existing
non-directory is a fatal error; otherwise `mkdir` it, treating `EEXIST` as
benign and any other `errno` as fatal.  Returns the advanced call counter,
or `none` on the error returns. -/
def processComponent (fs : FsOracle) (t : Nat) (p : String) : Option Nat :=
  match fs.stat t p with
  | StatRes.isDir => some (t + 1)
  | StatRes.isOther => none
  | StatRes.absent =>
    match fs.mkdir (t + 1) p with
    | MkdirRes.ok => some (t + 2)
    | MkdirRes.eexist => some (t + 2)
    | MkdirRes.err => none

/-- The final-component check of `_mktmpdir` (`/* Now ensure that final
directory exists: */`): `stat` the full path; an existing directory is fine,
an existing non-directory is fatal; otherwise any `mkdir` failure — with no
`errno` inspection — is fatal. -/
def processFinal (fs : FsOracle) (t : Nat) (p : String) : Option Nat :=
  match fs.stat t p with
  | StatRes.isDir => some (t + 1)
  | StatRes.isOther => none
  | StatRes.absent =>
    match fs.mkdir (t + 1) p with
    | MkdirRes.ok => some (t + 2)
    | MkdirRes.eexist => none
    | MkdirRes.err => none

/-- Process each intermediate prefix in order, threading the call counter. -/
def walkComponents (fs : FsOracle) : Nat → List String → Option Nat
  | t, [] => some t
  | t, p :: ps =>
    match processComponent fs t p with
    | some t2 => walkComponents fs t2 ps
    | none => none

/-- Indices `i` (with `start ≤ i`, `start` being `strlen(tmpdir)`) at which
the full path holds a `'/'`; these are exactly the positions at which the
`_mktmpdir` walk NUL-terminates the buffer and processes the prefix before
the separator. -/
def slashPositions (s : String) (start : Nat) : List Nat :=
  (List.range s.toList.length).filter
    (fun i => decide (start ≤ i) && (s.toList.getD i ' ' == '/'))

/-- Embedding of `_mktmpdir` (current variant): format the path with
`_sprint_tmpdir` (per-step granularity honoured, `ignore_pernode = 0`), then
walk the formatted path component-by-component starting at the end of the
base, and finally ensure the full path itself exists.  Returns the path on
success, `none` on the `-1` returns. -/
def _mktmpdir (pol : Policy) (shared hostname : String) (access : String → Bool)
    (fs : FsOracle) (buffer_capacity job_id job_step_id local_task_id : Nat) :
    Option String :=
  match _sprint_tmpdir pol shared hostname access buffer_capacity job_id job_step_id
      local_task_id false with
  | none => none
  | some (s, tmpdir) =>
    let pres := (slashPositions s tmpdir.length).map (fun i => String.mk (s.toList.take i))
    match walkComponents fs 0 pres with
    | none => none
    | some t =>
      match processFinal fs t s with
      | some _ => some s
      | none => none

/-- Oracle for a filesystem where no probed path exists and every `mkdir`
fails with `EEXIST` (each component is created by a concurrent creator
between the `stat` and the `mkdir`). -/
def fsAllEexist : FsOracle :=
  { stat := fun _ _ => StatRes.absent, mkdir := fun _ _ => MkdirRes.eexist }

/-- Oracle for a filesystem where every probed path is already a directory. -/
def fsAllDirs : FsOracle :=
  { stat := fun _ _ => StatRes.isDir, mkdir := fun _ _ => MkdirRes.ok }

example :
    _mktmpdir defaultPolicy "/shared" "node01" (fun _ => true) fsAllEexist 4096 100 0 2 =
      none := by rfl

example :
    _mktmpdir defaultPolicy "/shared" "node01" (fun _ => true) fsAllDirs 4096 100 0 2 =
      some "/tmp/job_100/step_0.2" := by rfl

/-- Effective identity of the process (`geteuid()` / `getegid()`). -/
structure PrivState where
  euid : Nat
  egid : Nat
deriving DecidableEq, Repr

/-- Oracle answering whether a `seteuid` / `setegid` call to the given target
identity succeeds (returns 0). -/
structure SetidOracle where
  uidOk : Nat → Bool
  gidOk : Nat → Bool

/-- A successful effective-identity switch, recorded in the order the calls
were made. -/
inductive IdEvent where
  | setgid (g : Nat)
  | setuid (u : Nat)
deriving DecidableEq, Repr

/-- Outcome of the privilege-drop sequence shared by `slurm_spank_task_init`
and `__cleanup_tmpdir`. -/
structure DropResult where
  succeeded : Bool
  state : PrivState
  didSetUid : Bool
  didSetGid : Bool
  trace : List IdEvent
deriving Repr

/-- Embedding of the `/* Drop privileges: */` sequence of
`slurm_spank_task_init` and `__cleanup_tmpdir`: if the job gid differs from
the saved gid, `setegid(jobGid)` (on failure, restore the uid if it had been
switched — it never has at this point — and fail); then, if the job uid
differs from the saved uid, `seteuid(jobUid)` (on failure, return the error
immediately: the already-switched gid is left in place). -/
def dropPrivileges (o : SetidOracle) (st : PrivState) (jobUid jobGid : Nat) : DropResult :=
  if jobGid ≠ st.egid then
    if o.gidOk jobGid then
      if jobUid ≠ st.euid then
        if o.uidOk jobUid then
          { succeeded := true, state := { euid := jobUid, egid := jobGid },
            didSetUid := true, didSetGid := true,
            trace := [IdEvent.setgid jobGid, IdEvent.setuid jobUid] }
        else
          { succeeded := false, state := { euid := st.euid, egid := jobGid },
            didSetUid := false, didSetGid := true, trace := [IdEvent.setgid jobGid] }
      else
        { succeeded := true, state := { euid := st.euid, egid := jobGid },
          didSetUid := false, didSetGid := true, trace := [IdEvent.setgid jobGid] }
    else
      { succeeded := false, state := st, didSetUid := false, didSetGid := false,
        trace := [] }
  else
    if jobUid ≠ st.euid then
      if o.uidOk jobUid then
        { succeeded := true, state := { euid := jobUid, egid := st.egid },
          didSetUid := true, didSetGid := false, trace := [IdEvent.setuid jobUid] }
      else
        { succeeded := false, state := st, didSetUid := false, didSetGid := false,
          trace := [] }
    else
      { succeeded := true, state := st, didSetUid := false, didSetGid := false,
        trace := [] }

/-- Embedding of the `/* Restore privileges: */` sequence:
`if (didSetUid) seteuid(savedUid); if (didSetGid) setegid(savedGid);` — the
return values of the restoring calls are ignored by the source, so a refused
call simply leaves that component unchanged. -/
def restorePrivileges (o : SetidOracle) (st : PrivState) (didSetUid didSetGid : Bool)
    (savedUid savedGid : Nat) : PrivState × List IdEvent :=
  let r1 :=
    if didSetUid then
      if o.uidOk savedUid then (PrivState.mk savedUid st.egid, [IdEvent.setuid savedUid])
      else (st, [])
    else (st, [])
  if didSetGid then
    if o.gidOk savedGid then
      (PrivState.mk r1.1.euid savedGid, r1.2 ++ [IdEvent.setgid savedGid])
    else r1
  else r1

/-- The drop / body / restore bracket shared by `slurm_spank_task_init`
(lines around `_mktmpdir`) and `__cleanup_tmpdir` (lines around the removal
logic): drop to the job identity, run the protected operation, restore the
saved identity.  When the drop fails the body is never run (`none`) and the
function returns with whatever identity the failed drop left in place. -/
def withJobIdentity {α : Type} (o : SetidOracle) (st : PrivState) (jobUid jobGid : Nat)
    (body : α) : Option α × PrivState × List IdEvent :=
  let d := dropPrivileges o st jobUid jobGid
  if d.succeeded then
    let r := restorePrivileges o d.state d.didSetUid d.didSetGid st.euid st.egid
    (some body, r.1, d.trace ++ r.2)
  else (none, d.state, d.trace)

/-- Removal-decision core of `__cleanup_tmpdir`, run under the dropped
identity: format the path with `ignore_pernode = 1`; when formatting
succeeded and either per-step directories are enabled or this is the
batch/extern pseudo-step, and the path `stat`s as a directory, the tree at
that path is handed to `_rmdir_recurse`.  The result is the path passed to
`_rmdir_recurse`, or `none` when nothing is removed. -/
def cleanupChoosesTarget (pol : Policy) (shared hostname : String)
    (access statDir : String → Bool) (job_id job_step_id local_task_id : Nat) :
    Option String :=
  match _sprint_tmpdir pol shared hostname access PATH_MAX job_id job_step_id
      local_task_id true with
  | none => none
  | some (s, _) =>
    if pol.should_create_per_step_tmpdirs = true ∨ job_step_id = SLURM_BATCH_SCRIPT ∨
        job_step_id = SLURM_EXTERN_CONT then
      if statDir s then some s else none
    else none

/-- Embedding of `__cleanup_tmpdir`: privilege bracket around the removal
decision.  First component: `some target` when the body ran (with `target`
the path handed to `_rmdir_recurse`, if any); `none` when the privilege drop
failed and the function returned early. -/
def __cleanup_tmpdir (o : SetidOracle) (st : PrivState) (jobUid jobGid : Nat)
    (pol : Policy) (shared hostname : String) (access statDir : String → Bool)
    (job_id job_step_id local_task_id : Nat) :
    Option (Option String) × PrivState × List IdEvent :=
  withJobIdentity o st jobUid jobGid
    (cleanupChoosesTarget pol shared hostname access statDir job_id job_step_id local_task_id)

/-- The path a `__cleanup_tmpdir` invocation actually removes: none when the
privilege drop failed or the body decided against removal. -/
def removalTarget (r : Option (Option String) × PrivState × List IdEvent) : Option String :=
  match r.1 with
  | some t => t
  | none => none

/-- Embedding of the removal decision of `slurm_spank_task_exit` (shared
storage compiled in): only when removal is enabled and per-node
sub-directories are in use, and the exiting step is not the batch/extern
pseudo-step, is `__cleanup_tmpdir` invoked for the step.  Result: the path
removed, if any. -/
def slurm_spank_task_exit (o : SetidOracle) (st : PrivState) (jobUid jobGid : Nat)
    (pol : Policy) (shared hostname : String) (access statDir : String → Bool)
    (job_id job_step_id task_id : Nat) : Option String :=
  if pol.should_remove_tmpdir = true ∧ pol.should_add_pernode_on_shared = true then
    if job_step_id ≠ SLURM_BATCH_SCRIPT ∧ job_step_id ≠ SLURM_EXTERN_CONT then
      removalTarget (__cleanup_tmpdir o st jobUid jobGid pol shared hostname access statDir
        job_id job_step_id task_id)
    else none
  else none

/-- Embedding of the removal decision of `slurm_spank_exit`: only in the
remote context, with removal enabled, and only when the exiting step is the
batch/extern pseudo-step, is `__cleanup_tmpdir` invoked (with
`SLURM_BATCH_SCRIPT` as the task id).  Result: the path removed, if any. -/
def slurm_spank_exit (remote : Bool) (o : SetidOracle) (st : PrivState)
    (jobUid jobGid : Nat) (pol : Policy) (shared hostname : String)
    (access statDir : String → Bool) (job_id job_step_id : Nat) : Option String :=
  if pol.should_remove_tmpdir = true ∧ remote = true then
    if job_step_id = SLURM_BATCH_SCRIPT ∨ job_step_id = SLURM_EXTERN_CONT then
      removalTarget (__cleanup_tmpdir o st jobUid jobGid pol shared hostname access statDir
        job_id job_step_id SLURM_BATCH_SCRIPT)
    else none
  else none

/-- Oracle under which every identity switch succeeds. -/
def setidAllOk : SetidOracle := { uidOk := fun _ => true, gidOk := fun _ => true }

/-- Oracle under which group switches succeed but user switches fail. -/
def setidUidFails : SetidOracle := { uidOk := fun _ => false, gidOk := fun _ => true }

example :
    withJobIdentity setidAllOk (PrivState.mk 0 0) 1000 1000 (42 : Nat) =
      (some 42, PrivState.mk 0 0,
        [IdEvent.setgid 1000, IdEvent.setuid 1000, IdEvent.setuid 0, IdEvent.setgid 0]) := by
  rfl

example :
    withJobIdentity setidUidFails (PrivState.mk 0 0) 1000 1000 (42 : Nat) =
      (none, PrivState.mk 0 1000, [IdEvent.setgid 1000]) := by rfl

/-- The `*optarg != '/'` validity check of `_opt_tmpdir`: the first character
of the argument must be a slash. -/
def beginsWithSlash (s : String) : Bool :=
  match s.toList with
  | [] => false
  | c :: _ => c == '/'

/-- Embedding of `_opt_tmpdir`: reject a path that does not begin with `'/'`
(`ESPANK_BAD_ARG`, modelled as `none`, with the globals untouched), otherwise
record the path as the configured base. -/
def _opt_tmpdir (optarg : String) (pol : Policy) : Option Policy :=
  if beginsWithSlash optarg then some { pol with base_tmpdir := some optarg } else none

/-- Embedding of `_opt_no_rm_tmpdir`: unconditionally clear
`should_remove_tmpdir`. -/
def _opt_no_rm_tmpdir (_optarg : String) (pol : Policy) : Policy :=
  { pol with should_remove_tmpdir := false }

/-- Embedding of `_opt_no_step_tmpdir`: unconditionally clear
`should_create_per_step_tmpdirs`. -/
def _opt_no_step_tmpdir (_optarg : String) (pol : Policy) : Policy :=
  { pol with should_create_per_step_tmpdirs := false }

/-- Embedding of `_opt_use_shared_tmpdir`: a value other than the `"(null)"`
no-argument sentinel must be `"per-node"` (which requests per-node
sub-directories) or the option is rejected (`ESPANK_BAD_ARG`, globals
untouched); on acceptance `should_create_on_shared` is set. -/
def _opt_use_shared_tmpdir (optarg : String) (pol : Policy) : Option Policy :=
  if optarg ≠ "(null)" then
    if optarg = "per-node" then
      some { pol with should_add_pernode_on_shared := true, should_create_on_shared := true }
    else none
  else some { pol with should_create_on_shared := true }

/-- Environment key checked by `slurm_spank_init` for `--no-rm-tmpdir`. -/
def envKeyNoRm : String := "SLURM_SPANK__SLURM_SPANK_OPTION_auto_tmpdir_no_rm_tmpdir"

/-- Environment key checked by `slurm_spank_init` for `--no-step-tmpdir`. -/
def envKeyNoStep : String := "SLURM_SPANK__SLURM_SPANK_OPTION_auto_tmpdir_no_step_tmpdir"

/-- Environment key checked by `slurm_spank_init` for `--tmpdir`. -/
def envKeyTmpdir : String := "SLURM_SPANK__SLURM_SPANK_OPTION_auto_tmpdir_tmpdir"

/-- Environment key checked by `slurm_spank_init` for `--use-shared-tmpdir`. -/
def envKeyUseShared : String := "SLURM_SPANK__SLURM_SPANK_OPTION_auto_tmpdir_use_shared_tmpdir"

/-- First-match lookup in a list of environment entries (the semantics of
`spank_getenv` over a set of distinct-keyed entries). -/
def lookupEnv : List (String × String) → String → Option String
  | [], _ => none
  | (k, v) :: rest, n => if k = n then some v else lookupEnv rest n

/-- Embedding of the `S_CTX_REMOTE` branch of `slurm_spank_init`: starting
from the pristine globals, check each prefixed environment entry in the order
the source does and re-invoke the corresponding option callback on its value;
a callback rejection (`ESPANK_BAD_ARG`) is ignored, leaving the globals as
they were. -/
def slurm_spank_init_remote (env : String → Option String) : Policy :=
  let p0 := defaultPolicy
  let p1 := match env envKeyNoRm with
            | some v => _opt_no_rm_tmpdir v p0
            | none => p0
  let p2 := match env envKeyNoStep with
            | some v => _opt_no_step_tmpdir v p1
            | none => p1
  let p3 := match env envKeyTmpdir with
            | some v => match _opt_tmpdir v p2 with
                        | some q => q
                        | none => p2
            | none => p2
  match env envKeyUseShared with
  | some v => match _opt_use_shared_tmpdir v p3 with
              | some q => q
              | none => p3
  | none => p3

/-- Modelled from the spec: the submission-side serializer is the host
scheduler's option export (each registered option that was set is re-exported
as one uniquely-prefixed environment entry whose value is the flag's raw
argument string, or the `"(null)"` sentinel for a no-argument flag); that
code lives in the scheduler, not in this repository.  The entry names are the
exact keys the execution side reads back in `slurm_spank_init`. -/
def serializePolicy (pol : Policy) : List (String × String) :=
  (if pol.should_remove_tmpdir then [] else [(envKeyNoRm, "(null)")]) ++
  (if pol.should_create_per_step_tmpdirs then [] else [(envKeyNoStep, "(null)")]) ++
  (match pol.base_tmpdir with
   | some b => [(envKeyTmpdir, b)]
   | none => []) ++
  (if pol.should_create_on_shared then
    [(envKeyUseShared, if pol.should_add_pernode_on_shared then "per-node" else "(null)")]
   else [])

/-- A policy is reachable from flag parsing: a configured base begins with
`'/'` (anything else is rejected by `_opt_tmpdir`), and per-node placement is
only ever set together with shared storage (both are set by the same
`_opt_use_shared_tmpdir` call). -/
def Policy.reachable (pol : Policy) : Prop :=
  (∀ b, pol.base_tmpdir = some b → beginsWithSlash b = true) ∧
  (pol.should_add_pernode_on_shared = true → pol.should_create_on_shared = true)

example :
    slurm_spank_init_remote
      (lookupEnv (serializePolicy (Policy.mk (some "/scratch") false false true true))) =
      Policy.mk (some "/scratch") false false true true := by decide

end AutoTmpdir

namespace AutoTmpdirV0

/-- A filesystem tree entry as seen by the `fts(3)` traversal of the older
variant: a regular file (`FTS_F`), a symbolic link (`FTS_SL`, never followed
under `FTS_PHYSICAL`), or a directory with its children.  Every entry records
its name and the owner uid `fts_statp->st_uid` reports. -/
inductive Entry where
  | file (name : String) (uid : Nat)
  | symlink (name : String) (uid : Nat)
  | dir (name : String) (uid : Nat) (children : List Entry)

/-- Name of an entry. -/
def Entry.name : Entry → String
  | Entry.file n _ => n
  | Entry.symlink n _ => n
  | Entry.dir n _ _ => n

mutual

/-- Depth-first removal of one entry at path `p`, as performed by the
`fts_read` loop: children are removed before their parent (`FTS_DP`), each
`remove(3)` may fail (`ok p = false`), a failed removal is recorded (`rc`
becomes `-1`) but the traversal continues, and a directory whose children did
not all disappear cannot itself be removed.  Returns (all removals
succeeded, surviving entry if any). -/
def rmEntry (ok : String → Bool) (p : String) : Entry → Bool × Option Entry
  | Entry.file n u =>
    if ok p then (true, none) else (false, some (Entry.file n u))
  | Entry.symlink n u =>
    if ok p then (true, none) else (false, some (Entry.symlink n u))
  | Entry.dir n u cs =>
    let r := rmChildren ok p cs
    if r.2.isEmpty then
      if ok p then (r.1, none) else (false, some (Entry.dir n u []))
    else (false, some (Entry.dir n u r.2))

/-- Depth-first removal of a directory's children, in order. -/
def rmChildren (ok : String → Bool) (p : String) : List Entry → Bool × List Entry
  | [] => (true, [])
  | c :: rest =>
    let r1 := rmEntry ok (p ++ "/" ++ Entry.name c) c
    let r2 := rmChildren ok p rest
    (r1.1 && r2.1,
      (match r1.2 with
       | some e => [e]
       | none => []) ++ r2.2)

end

/-- Embedding of the older variant's `_rmdir_recurse(path, match_uid)`.
`target` is what the traversal finds at `path` (`none`: the path does not
exist, which yields `rc = 0` — an already-satisfied post-condition).  The
first `fts_read` item is inspected: only a directory (`FTS_D`) is processed,
and only after its reported owner uid equals `match_uid`; on a mismatch the
function logs a "not owned by job user" error and returns `-1` having removed
nothing.  The result is the `rc` and what remains of the target. -/
def _rmdir_recurse (ok : String → Bool) (path : String) (target : Option Entry)
    (match_uid : Nat) : Int × Option Entry :=
  match target with
  | none => (0, none)
  | some e =>
    match e with
    | Entry.dir n u cs =>
      if u = match_uid then
        let r := rmEntry ok path (Entry.dir n u cs)
        (if r.1 then 0 else -1, r.2)
      else (-1, some (Entry.dir n u cs))
    | e2 => (0, some e2)

example :
    _rmdir_recurse (fun _ => true) "/tmp/1234"
      (some (Entry.dir "1234" 501 [Entry.file "a" 501])) 501 = (0, none) := by rfl

example :
    _rmdir_recurse (fun _ => true) "/tmp/1234"
      (some (Entry.dir "1234" 501 [Entry.file "a" 501])) 0 =
      (-1, some (Entry.dir "1234" 501 [Entry.file "a" 501])) := by rfl

end AutoTmpdirV0

namespace AutoTmpdir

/-- Unfolding of `_sprint_tmpdir` once the base selection is known. -/
theorem sprint_eq (pol : Policy) (shared hostname : String) (access : String → Bool)
    (cap job step task : Nat) (ignore : Bool) (c : BaseChoice) (fb : Bool)
    (hbase : _get_base_tmpdir pol shared access = some (c, fb)) :
    _sprint_tmpdir pol shared hostname access cap job step task ignore =
      (let tmpdir := baseChoiceStr shared c
       let s :=
        if c = BaseChoice.fromShared ∧ pol.should_add_pernode_on_shared = true then
          let host := shortHostname hostname
          if ¬ pol.should_create_per_step_tmpdirs = true ∨ isPseudoStep step = true then
            if ignore then job_dir_format tmpdir job
            else pernode_job_dir_format tmpdir job host
          else pernode_job_step_dir_format tmpdir job host step task
        else
          if ¬ pol.should_create_per_step_tmpdirs = true ∨ isPseudoStep step = true then
            job_dir_format tmpdir job
          else job_step_dir_format tmpdir job step task
       if 0 < s.length ∧ s.length < cap then some (s, tmpdir) else none) := by
  unfold _sprint_tmpdir
  rw [hbase]

/-- Appending cannot shorten a string. -/
theorem length_le_append (x y : String) : x.length ≤ (x ++ y).length := by
  rw [String.length_append]
  omega

/-- Appending to a positive-length string keeps the length positive. -/
theorem len_pos_append (x y : String) (h : 0 < x.length) : 0 < (x ++ y).length :=
  lt_of_lt_of_le h (length_le_append x y)

/-- Every formatted path contains the nonempty `"/job_"` fragment. -/
theorem job_fragment_pos (b : String) : 0 < (b ++ "/job_").length := by
  have h5 : ("/job_" : String).length = 5 := rfl
  rw [String.length_append, h5]
  omega

/-- A string never equals itself extended by a nonempty suffix. -/
theorem ne_append_of_len_pos (x y : String) (h : 0 < y.length) : x ≠ x ++ y := by
  intro heq
  have := congrArg String.length heq
  rw [String.length_append] at this
  omega

/-- A step-level path is never the job-level path of the same base and job. -/
theorem step_dir_ne_job_dir (b : String) (j s t : Nat) :
    job_step_dir_format b j s t ≠ job_dir_format b j := by
  intro h
  have hl := congrArg String.length h
  simp only [job_step_dir_format, job_dir_format, String.length_append] at hl
  have h6 : ("/step_" : String).length = 6 := rfl
  have h1 : ("." : String).length = 1 := rfl
  rw [h6, h1] at hl
  omega

/-- A host-qualified step-level path is never the job-level path of the same
base and job. -/
theorem pernode_step_dir_ne_job_dir (b : String) (j : Nat) (host : String) (s t : Nat) :
    pernode_job_step_dir_format b j host s t ≠ job_dir_format b j := by
  intro h
  have hl := congrArg String.length h
  simp only [pernode_job_step_dir_format, job_dir_format, String.length_append] at hl
  have h6 : ("/step_" : String).length = 6 := rfl
  have h1 : ("." : String).length = 1 := rfl
  have h1b : ("/" : String).length = 1 := rfl
  rw [h6, h1, h1b] at hl
  omega

/-- C6: base selection tries the explicit base, then the shared-storage path
(when shared storage was requested), then the built-in default, in that
order; the first accessible candidate wins, an inaccessible candidate only
causes fallback (recorded in the warning flag), and the selection hard-fails
exactly when every candidate is inaccessible.  The warning flag is set iff
the first candidate of the order was inaccessible. -/
theorem claim_C6 (pol : Policy) (shared : String) (access : String → Bool) :
    ((_get_base_tmpdir pol shared access).map (fun r => baseChoiceStr shared r.1) =
      (baseCandidates pol shared).find? access) ∧
    (_get_base_tmpdir pol shared access = none ↔
      ∀ cand ∈ baseCandidates pol shared, access cand = false) ∧
    (∀ c fb, _get_base_tmpdir pol shared access = some (c, fb) →
      fb = ! access ((baseCandidates pol shared).headI)) := by
  rcases hb : pol.base_tmpdir with _ | b <;>
    cases hs : pol.should_create_on_shared <;>
    by_cases hsh : access shared <;>
    by_cases hd : access defaultTmpdir <;>
    first
      | (by_cases hbb : access b <;>
          simp [_get_base_tmpdir, baseCandidates, baseChoiceStr, hb, hs, hsh, hd, hbb,
            List.find?, List.headI])
      | simp [_get_base_tmpdir, baseCandidates, baseChoiceStr, hb, hs, hsh, hd,
          List.find?, List.headI]

/-- Witness for C6 at a concrete configuration: explicit base `"/x"` is
inaccessible, so the formatter falls back (warning flag set) to the shared
path. -/
theorem claim_C6_witness :
    (true : Bool) =
      ! ((fun s => ! (s == "/x"))
          ((baseCandidates (Policy.mk (some "/x") true true true true) "/sh").headI)) :=
  (claim_C6 (Policy.mk (some "/x") true true true true) "/sh"
    (fun s => ! (s == "/x"))).2.2 BaseChoice.fromShared true (by decide)

/-- C1: for every job identity and policy the formatter emits exactly the
documented path strings — `{base}/job_{job_id}` at job level,
`{base}/job_{job_id}/step_{step_id}.{task_id}` when per-step directories are
enabled and the step is real, and with the shared base in per-node mode the
short hostname inserted between the job segment and the step segment — and
in particular job 100, real step 0, task 2 under the default policy yields
`/tmp/job_100/step_0.2`. -/
theorem claim_C1 (pol : Policy) (shared hostname : String) (access : String → Bool)
    (cap job step task : Nat) (c : BaseChoice) (fb : Bool)
    (hbase : _get_base_tmpdir pol shared access = some (c, fb)) :
    (pol.should_create_per_step_tmpdirs = true → isPseudoStep step = false →
      ¬ (c = BaseChoice.fromShared ∧ pol.should_add_pernode_on_shared = true) →
      (baseChoiceStr shared c ++ "/job_" ++ Nat.repr job ++ "/step_" ++ Nat.repr step ++
        "." ++ Nat.repr task).length < cap →
      _sprint_tmpdir pol shared hostname access cap job step task false =
        some (baseChoiceStr shared c ++ "/job_" ++ Nat.repr job ++ "/step_" ++
          Nat.repr step ++ "." ++ Nat.repr task, baseChoiceStr shared c)) ∧
    ((¬ pol.should_create_per_step_tmpdirs = true ∨ isPseudoStep step = true) →
      ¬ (c = BaseChoice.fromShared ∧ pol.should_add_pernode_on_shared = true) →
      (baseChoiceStr shared c ++ "/job_" ++ Nat.repr job).length < cap →
      _sprint_tmpdir pol shared hostname access cap job step task false =
        some (baseChoiceStr shared c ++ "/job_" ++ Nat.repr job, baseChoiceStr shared c)) ∧
    (c = BaseChoice.fromShared → pol.should_add_pernode_on_shared = true →
      pol.should_create_per_step_tmpdirs = true → isPseudoStep step = false →
      (shared ++ "/job_" ++ Nat.repr job ++ "/" ++ shortHostname hostname ++ "/step_" ++
        Nat.repr step ++ "." ++ Nat.repr task).length < cap →
      _sprint_tmpdir pol shared hostname access cap job step task false =
        some (shared ++ "/job_" ++ Nat.repr job ++ "/" ++ shortHostname hostname ++
          "/step_" ++ Nat.repr step ++ "." ++ Nat.repr task, shared)) ∧
    (c = BaseChoice.fromShared → pol.should_add_pernode_on_shared = true →
      (¬ pol.should_create_per_step_tmpdirs = true ∨ isPseudoStep step = true) →
      (shared ++ "/job_" ++ Nat.repr job ++ "/" ++ shortHostname hostname).length < cap →
      _sprint_tmpdir pol shared hostname access cap job step task false =
        some (shared ++ "/job_" ++ Nat.repr job ++ "/" ++ shortHostname hostname, shared)) ∧
    _sprint_tmpdir defaultPolicy shared hostname (fun _ => true) 4096 100 0 2 false =
      some ("/tmp/job_100/step_0.2", "/tmp") := by
  have h5 : ("/job_" : String).length = 5 := rfl
  refine ⟨?_, ?_, ?_, ?_, rfl⟩
  · intro h1 h2 h3 h4
    rw [sprint_eq pol shared hostname access cap job step task false c fb hbase]
    simp only [String.length_append] at h4
    simp [job_step_dir_format, job_dir_format, pernode_job_dir_format,
      pernode_job_step_dir_format, h1, h2, h3]
    omega
  · intro h1 h3 h4
    rw [sprint_eq pol shared hostname access cap job step task false c fb hbase]
    simp only [String.length_append] at h4
    rcases h1 with h1 | h1 <;>
      simp [job_step_dir_format, job_dir_format, pernode_job_dir_format,
        pernode_job_step_dir_format, h1, h3] <;>
      omega
  · intro hc hpn h1 h2 h4
    rw [sprint_eq pol shared hostname access cap job step task false c fb hbase]
    simp only [String.length_append] at h4
    simp [job_step_dir_format, job_dir_format, pernode_job_dir_format,
      pernode_job_step_dir_format, hc, hpn, h1, h2, baseChoiceStr]
    omega
  · intro hc hpn h1 h4
    rw [sprint_eq pol shared hostname access cap job step task false c fb hbase]
    simp only [String.length_append] at h4
    rcases h1 with h1 | h1 <;>
      simp [job_step_dir_format, job_dir_format, pernode_job_dir_format,
        pernode_job_step_dir_format, hc, hpn, h1, baseChoiceStr] <;>
      omega

/-- Witness for C1: the per-node step-level shape at a concrete identity. -/
theorem claim_C1_witness :
    _sprint_tmpdir (Policy.mk none true true true true) "/lustre" "node07.cluster.example"
      (fun _ => true) 4096 100 3 2 false =
      some ("/lustre/job_100/node07/step_3.2", "/lustre") :=
  (claim_C1 (Policy.mk none true true true true) "/lustre" "node07.cluster.example"
    (fun _ => true) 4096 100 3 2 BaseChoice.fromShared false rfl).2.2.1
    rfl rfl rfl (by decide) (by decide)

/-- C2: a batch/extern pseudo-step always resolves to a job-level path (with
or without the per-node host segment), never to a step-level path, for every
policy — in particular regardless of `should_create_per_step_tmpdirs` — and
every task id. -/
theorem claim_C2 (pol : Policy) (shared hostname : String) (access : String → Bool)
    (cap job step task : Nat) (ignore : Bool) (s b : String)
    (hstep : isPseudoStep step = true)
    (h : _sprint_tmpdir pol shared hostname access cap job step task ignore =
      some (s, b)) :
    s = b ++ "/job_" ++ Nat.repr job ∨
      s = b ++ "/job_" ++ Nat.repr job ++ "/" ++ shortHostname hostname := by
  rcases hbase : _get_base_tmpdir pol shared access with _ | ⟨c, fb⟩
  · rw [_sprint_tmpdir, hbase] at h
    exact absurd h (by simp)
  · rw [sprint_eq pol shared hostname access cap job step task ignore c fb hbase] at h
    by_cases hpn : c = BaseChoice.fromShared ∧ pol.should_add_pernode_on_shared = true
    · cases ignore <;>
        · simp only [hstep, or_true, if_true, if_pos hpn, Bool.false_eq_true, if_false,
            eq_self_iff_true] at h
          split at h
          · rw [Option.some.injEq, Prod.mk.injEq] at h
            first
              | exact Or.inr (by rw [← h.1, ← h.2]; rfl)
              | exact Or.inl (by rw [← h.1, ← h.2]; rfl)
          · exact absurd h (by simp)
    · simp only [hstep, or_true, if_true, if_neg hpn, eq_self_iff_true] at h
      split at h
      · rw [Option.some.injEq, Prod.mk.injEq] at h
        exact Or.inl (by rw [← h.1, ← h.2]; rfl)
      · exact absurd h (by simp)

/-- Witness for C2: the batch pseudo-step with per-step directories enabled
still resolves to the job-level path. -/
theorem claim_C2_witness :
    ("/tmp/job_100" : String) = "/tmp" ++ "/job_" ++ Nat.repr 100 ∨
      ("/tmp/job_100" : String) = "/tmp" ++ "/job_" ++ Nat.repr 100 ++ "/" ++
        shortHostname "node01" :=
  claim_C2 defaultPolicy "/shared" "node01" (fun _ => true) 4096 100 SLURM_BATCH_SCRIPT 2
    false "/tmp/job_100" "/tmp" (by decide) (by decide)

/-- C9 fails as stated: the formatter is not a function of the job identity
and policy alone, because the `access(2)` probe inside the base selection
(I/O) influences the result.  With identical identity and policy, a run in
which the explicit base `/a` is accessible yields a path under `/a`, while a
run in which `/a` has become inaccessible falls back to `/tmp`. -/
theorem claim_C9_counterexample :
    _sprint_tmpdir (Policy.mk (some "/a") true true false false) "/sh" "h"
        (fun _ => true) 4096 1 0 0 false ≠
      _sprint_tmpdir (Policy.mk (some "/a") true true false false) "/sh" "h"
        (fun s => ! (s == "/a")) 4096 1 0 0 false := by decide

/-- C9, amended: the formatter is a pure function of the job identity, the
policy, the hostname, and the accessibility of the candidate base
directories: two invocations whose `access` probes agree on every candidate
base produce the identical result, and nothing else about the environment
can influence it. -/
theorem claim_C9 (pol : Policy) (shared hostname : String) (a1 a2 : String → Bool)
    (cap job step task : Nat) (ignore : Bool)
    (hagree : ∀ cand ∈ baseCandidates pol shared, a1 cand = a2 cand) :
    _sprint_tmpdir pol shared hostname a1 cap job step task ignore =
      _sprint_tmpdir pol shared hostname a2 cap job step task ignore := by
  have hd : a1 defaultTmpdir = a2 defaultTmpdir := by
    apply hagree
    rcases pol.base_tmpdir <;> simp [baseCandidates]
  have hg : _get_base_tmpdir pol shared a1 = _get_base_tmpdir pol shared a2 := by
    rcases hb : pol.base_tmpdir with _ | b <;> cases hs : pol.should_create_on_shared
    · simp [_get_base_tmpdir, hb, hs, hd]
    · have hsh : a1 shared = a2 shared := hagree _ (by simp [baseCandidates, hb, hs])
      simp [_get_base_tmpdir, hb, hs, hd, hsh]
    · have hbb : a1 b = a2 b := hagree _ (by simp [baseCandidates, hb])
      simp [_get_base_tmpdir, hb, hs, hd, hbb]
    · have hsh : a1 shared = a2 shared := hagree _ (by simp [baseCandidates, hb, hs])
      have hbb : a1 b = a2 b := hagree _ (by simp [baseCandidates, hb])
      simp [_get_base_tmpdir, hb, hs, hd, hsh, hbb]
  unfold _sprint_tmpdir
  rw [hg]

/-- Witness for C9 (amended): two syntactically different probes agreeing on
the only candidate base give identical output. -/
theorem claim_C9_witness :
    _sprint_tmpdir defaultPolicy "/sh" "h" (fun _ => true) 4096 1 2 3 false =
      _sprint_tmpdir defaultPolicy "/sh" "h" (fun s => s == "/tmp") 4096 1 2 3 false :=
  claim_C9 defaultPolicy "/sh" "h" (fun _ => true) (fun s => s == "/tmp") 4096 1 2 3 false
    (by decide)

/-- C4 fails as stated: a creation attempt on the final path component that
fails because a concurrent creator already made it (`EEXIST`) is treated as a
failure of the whole walk, not as success.  The oracle below answers every
`stat` with "absent" and every `mkdir` with `EEXIST` — a benign world in
which no component is a non-directory and no `mkdir` fails for a reason
other than prior existence — yet `_mktmpdir` fails. -/
theorem claim_C4_counterexample :
    ¬ (∀ fs : FsOracle, (∀ t p, fs.mkdir t p ≠ MkdirRes.err) →
        (∀ t p, fs.stat t p ≠ StatRes.isOther) →
        _mktmpdir defaultPolicy "/shared" "node01" (fun _ => true) fs 4096 100 0 2 ≠
          none) := by
  intro h
  exact h fsAllEexist (fun t p => by simp [fsAllEexist]) (fun t p => by simp [fsAllEexist])
    rfl

/-- C4, amended: for the intermediate components of the walk an existing
directory is accepted, an existing non-directory fails, and a `mkdir` that
fails with `EEXIST` is treated as success — with no re-stat or directory-ness
verification; for the final component an existing directory is accepted, an
existing non-directory fails, and any `mkdir` failure — `EEXIST` included —
is a failure. -/
theorem claim_C4 (fs : FsOracle) (t : Nat) (p : String) :
    (processComponent fs t p = none ↔
      fs.stat t p = StatRes.isOther ∨
        (fs.stat t p = StatRes.absent ∧ fs.mkdir (t + 1) p = MkdirRes.err)) ∧
    (processFinal fs t p = none ↔
      fs.stat t p = StatRes.isOther ∨
        (fs.stat t p = StatRes.absent ∧ fs.mkdir (t + 1) p ≠ MkdirRes.ok)) := by
  constructor <;>
    · cases h1 : fs.stat t p <;> simp [processComponent, processFinal, h1] <;>
        cases h2 : fs.mkdir (t + 1) p <;> simp [h2]

/-- C5 fails as stated: when the drop to the job identity fails at the
`seteuid` step after `setegid` has already succeeded, the function reports
the privilege-drop failure without restoring the already-switched group
identity.  Concretely, from identity (0, 0) targeting (1000, 1000) with
`seteuid` refused, the scope exits in failure with effective gid 1000 still
in place. -/
theorem claim_C5_counterexample :
    (withJobIdentity setidUidFails (PrivState.mk 0 0) 1000 1000 (0 : Nat)).1 = none ∧
    (withJobIdentity setidUidFails (PrivState.mk 0 0) 1000 1000 (0 : Nat)).2.1 ≠
      PrivState.mk 0 0 ∧
    (withJobIdentity setidUidFails (PrivState.mk 0 0) 1000 1000 (0 : Nat)).2.2 =
      [IdEvent.setgid 1000] := by decide

/-- C5, amended: the scope switches group identity before user identity when
dropping; a group-switch failure reports the privilege-drop failure with the
identity unchanged (nothing had been switched yet); a user-switch failure
after a successful group switch reports the failure but leaves the switched
group identity in place (it is not restored); and on completion of the
protected operation the original identity is restored in reverse order (user
first, then group) on every exit path that ran the body. -/
theorem claim_C5 {α : Type} (o : SetidOracle) (st : PrivState) (ju jg : Nat) (body : α) :
    (jg ≠ st.egid → ju ≠ st.euid → o.gidOk jg = true → o.uidOk ju = true →
      o.uidOk st.euid = true → o.gidOk st.egid = true →
      withJobIdentity o st ju jg body =
        (some body, st,
          [IdEvent.setgid jg, IdEvent.setuid ju, IdEvent.setuid st.euid,
            IdEvent.setgid st.egid])) ∧
    (jg ≠ st.egid → o.gidOk jg = false →
      withJobIdentity o st ju jg body = (none, st, [])) ∧
    (jg ≠ st.egid → ju ≠ st.euid → o.gidOk jg = true → o.uidOk ju = false →
      withJobIdentity o st ju jg body =
        (none, PrivState.mk st.euid jg, [IdEvent.setgid jg])) ∧
    ((withJobIdentity o st ju jg body).1 = some body → o.uidOk st.euid = true →
      o.gidOk st.egid = true → (withJobIdentity o st ju jg body).2.1 = st) := by
  obtain ⟨se, sg⟩ := st
  refine ⟨?_, ?_, ?_, ?_⟩
  · intro h1 h2 h3 h4 h5 h6
    simp [withJobIdentity, dropPrivileges, restorePrivileges, h1, h2, h3, h4, h5, h6]
  · intro h1 h2
    simp [withJobIdentity, dropPrivileges, restorePrivileges, h1, h2]
  · intro h1 h2 h3 h4
    simp [withJobIdentity, dropPrivileges, restorePrivileges, h1, h2, h3, h4]
  · intro hsome h5 h6
    by_cases h1 : jg = sg <;> by_cases h2 : ju = se
    · simp [withJobIdentity, dropPrivileges, restorePrivileges, h1, h2]
    · by_cases h4 : o.uidOk ju = true
      · simp [withJobIdentity, dropPrivileges, restorePrivileges, h1, h2, h4, h5]
      · simp only [Bool.not_eq_true] at h4
        simp [withJobIdentity, dropPrivileges, restorePrivileges, h1, h2, h4] at hsome
    · by_cases h3 : o.gidOk jg = true
      · simp [withJobIdentity, dropPrivileges, restorePrivileges, h1, h2, h3, h6]
      · simp only [Bool.not_eq_true] at h3
        simp [withJobIdentity, dropPrivileges, restorePrivileges, h1, h2, h3] at hsome
    · by_cases h3 : o.gidOk jg = true
      · by_cases h4 : o.uidOk ju = true
        · simp [withJobIdentity, dropPrivileges, restorePrivileges, h1, h2, h3, h4, h5, h6]
        · simp only [Bool.not_eq_true] at h4
          simp [withJobIdentity, dropPrivileges, restorePrivileges, h1, h2, h3, h4] at hsome
      · simp only [Bool.not_eq_true] at h3
        simp [withJobIdentity, dropPrivileges, restorePrivileges, h1, h2, h3] at hsome

/-- Witness for C5 (amended): a full successful drop and reverse-order
restore at concrete identities. -/
theorem claim_C5_witness :
    withJobIdentity setidAllOk (PrivState.mk 0 0) 1000 2000 (7 : Nat) =
      (some 7, PrivState.mk 0 0,
        [IdEvent.setgid 2000, IdEvent.setuid 1000, IdEvent.setuid 0, IdEvent.setgid 0]) :=
  (claim_C5 setidAllOk (PrivState.mk 0 0) 1000 2000 7).1 (by decide) (by decide) rfl rfl
    rfl rfl

end AutoTmpdir

namespace AutoTmpdirV0

/-- C3: the UID-checked recursive remover compares the filesystem-reported
owner uid of the top-level directory against the expected uid before any
deletion; on a mismatch it reports the ownership-mismatch failure (`-1`) and
the tree is left untouched, whatever the per-entry removal outcomes would
have been. -/
theorem claim_C3 (ok : String → Bool) (path nm : String) (uid : Nat) (cs : List Entry)
    (match_uid : Nat) (hne : uid ≠ match_uid) :
    _rmdir_recurse ok path (some (Entry.dir nm uid cs)) match_uid =
      (-1, some (Entry.dir nm uid cs)) := by
  simp [_rmdir_recurse, hne]

/-- Witness for C3: a concrete tree owned by uid 501 offered for removal with
expected owner 0 is refused and survives intact. -/
theorem claim_C3_witness :
    _rmdir_recurse (fun _ => true) "/tmp/1234"
        (some (Entry.dir "1234" 501 [Entry.file "a" 501, Entry.dir "b" 501 []])) 0 =
      (-1, some (Entry.dir "1234" 501 [Entry.file "a" 501, Entry.dir "b" 501 []])) :=
  claim_C3 (fun _ => true) "/tmp/1234" "1234" 501 [Entry.file "a" 501, Entry.dir "b" 501 []]
    0 (by decide)

end AutoTmpdirV0

namespace AutoTmpdir

/-- First-match lookup is invariant under permutation of distinct-keyed
entries. -/
theorem lookupEnv_perm : ∀ {l1 l2 : List (String × String)}, l1.Perm l2 →
    (l1.map Prod.fst).Nodup → ∀ k, lookupEnv l1 k = lookupEnv l2 k := by
  intro l1 l2 h
  induction h with
  | nil =>
    intro _ k
    rfl
  | cons x h ih =>
    intro hnd k
    obtain ⟨x1, x2⟩ := x
    simp only [List.map_cons, List.nodup_cons] at hnd
    by_cases hk : x1 = k
    · simp [lookupEnv, hk]
    · simp only [lookupEnv, if_neg hk]
      exact ih hnd.2 k
  | swap x y l =>
    intro hnd k
    obtain ⟨x1, x2⟩ := x
    obtain ⟨y1, y2⟩ := y
    simp only [List.map_cons, List.nodup_cons, List.mem_cons] at hnd
    have hxy : y1 ≠ x1 := fun he => hnd.1 (Or.inl he)
    by_cases h1 : y1 = k <;> by_cases h2 : x1 = k
    · exact absurd (h1.trans h2.symm) hxy
    · simp [lookupEnv, h1, h2]
    · simp [lookupEnv, h1, h2]
    · simp [lookupEnv, h1, h2]
  | trans h1 h2 ih1 ih2 =>
    intro hnd k
    have hnd2 := (h1.map Prod.fst).nodup hnd
    exact (ih1 hnd k).trans (ih2 hnd2 k)

/-- The serialized entries carry pairwise-distinct keys. -/
theorem serialize_keys_nodup (pol : Policy) :
    ((serializePolicy pol).map Prod.fst).Nodup := by
  obtain ⟨b, r, s, sh, pn⟩ := pol
  rcases b with _ | b <;> cases r <;> cases s <;> cases sh <;> cases pn <;>
    simp [serializePolicy, envKeyNoRm, envKeyNoStep, envKeyTmpdir, envKeyUseShared]

/-- Re-parsing the serialized entries of a reachable policy reconstructs it. -/
theorem parse_serialize (pol : Policy) (hre : pol.reachable) :
    slurm_spank_init_remote (lookupEnv (serializePolicy pol)) = pol := by
  obtain ⟨h1, h2⟩ := hre
  obtain ⟨b, r, s, sh, pn⟩ := pol
  rcases b with _ | b <;> cases r <;> cases s <;> cases sh <;> cases pn <;>
    first
      | (simp at h2
         done)
      | (have hb := h1 _ rfl
         simp [slurm_spank_init_remote, serializePolicy, lookupEnv, envKeyNoRm,
           envKeyNoStep, envKeyTmpdir, envKeyUseShared, _opt_tmpdir, _opt_no_rm_tmpdir,
           _opt_no_step_tmpdir, _opt_use_shared_tmpdir, defaultPolicy, hb])
      | simp [slurm_spank_init_remote, serializePolicy, lookupEnv, envKeyNoRm,
          envKeyNoStep, envKeyTmpdir, envKeyUseShared, _opt_tmpdir, _opt_no_rm_tmpdir,
          _opt_no_step_tmpdir, _opt_use_shared_tmpdir, defaultPolicy]

/-- C7: serializing a flag-reachable policy through the prefixed environment
channel and re-parsing the entries on the execution side — by re-invoking the
same option callbacks, with the entries presented in any order — reconstructs
a policy equal to the original. -/
theorem claim_C7 (pol : Policy) (hre : pol.reachable) (l : List (String × String))
    (hperm : l.Perm (serializePolicy pol)) :
    slurm_spank_init_remote (lookupEnv l) = pol := by
  have hnd : (l.map Prod.fst).Nodup :=
    ((hperm.map Prod.fst).symm).nodup (serialize_keys_nodup pol)
  have hlook := lookupEnv_perm hperm hnd
  have hsame : slurm_spank_init_remote (lookupEnv l) =
      slurm_spank_init_remote (lookupEnv (serializePolicy pol)) := by
    unfold slurm_spank_init_remote
    rw [hlook, hlook, hlook, hlook]
  rw [hsame, parse_serialize pol hre]

/-- Witness for C7: a fully-flagged policy, with the environment entries
presented in a different order than serialized. -/
theorem claim_C7_witness :
    slurm_spank_init_remote
      (lookupEnv [(envKeyUseShared, "per-node"), (envKeyTmpdir, "/scratch"),
        (envKeyNoStep, "(null)"), (envKeyNoRm, "(null)")]) =
      Policy.mk (some "/scratch") false false true true :=
  claim_C7 (Policy.mk (some "/scratch") false false true true)
    ⟨fun b hb => by cases hb; rfl, fun _ => rfl⟩
    [(envKeyUseShared, "per-node"), (envKeyTmpdir, "/scratch"),
      (envKeyNoStep, "(null)"), (envKeyNoRm, "(null)")]
    (by decide)

/-- When every identity switch succeeds, the privilege drop succeeds. -/
theorem drop_succeeds_allok (o : SetidOracle) (hu : ∀ u, o.uidOk u = true)
    (hg : ∀ g, o.gidOk g = true) (st : PrivState) (ju jg : Nat) :
    (dropPrivileges o st ju jg).succeeded = true := by
  unfold dropPrivileges
  by_cases h1 : jg = st.egid <;> by_cases h2 : ju = st.euid <;> simp [h1, h2, hu, hg]

/-- When every identity switch succeeds, the privilege bracket runs the body
and the removal target is exactly what the body chose. -/
theorem removalTarget_allok (o : SetidOracle) (hu : ∀ u, o.uidOk u = true)
    (hg : ∀ g, o.gidOk g = true) (st : PrivState) (ju jg : Nat) (t : Option String) :
    removalTarget (withJobIdentity o st ju jg t) = t := by
  have hd := drop_succeeds_allok o hu hg st ju jg
  unfold removalTarget withJobIdentity
  simp [hd]

/-- A path actually removed by `__cleanup_tmpdir` was chosen by its removal
decision core (in particular the privilege drop succeeded). -/
theorem removalTarget_eq_some (o : SetidOracle) (st : PrivState) (ju jg : Nat)
    (pol : Policy) (shared hostname : String) (access statDir : String → Bool)
    (job step task : Nat) (p : String)
    (h : removalTarget (__cleanup_tmpdir o st ju jg pol shared hostname access statDir
      job step task) = some p) :
    cleanupChoosesTarget pol shared hostname access statDir job step task = some p := by
  unfold removalTarget __cleanup_tmpdir withJobIdentity at h
  by_cases hd : (dropPrivileges o st ju jg).succeeded
  · simp only [hd, if_true] at h
    exact h
  · simp [hd] at h

/-- Inversion of the removal decision core: a chosen target was formatted by
`_sprint_tmpdir` with `ignore_pernode = 1`, the per-step-or-pseudo-step
condition held, and the path passed the directory `stat` check. -/
theorem cleanupTarget_inv (pol : Policy) (shared hostname : String)
    (access statDir : String → Bool) (job step task : Nat) (p : String)
    (h : cleanupChoosesTarget pol shared hostname access statDir job step task = some p) :
    ∃ b0, _sprint_tmpdir pol shared hostname access PATH_MAX job step task true =
        some (p, b0) ∧
      (pol.should_create_per_step_tmpdirs = true ∨ step = SLURM_BATCH_SCRIPT ∨
        step = SLURM_EXTERN_CONT) ∧
      statDir p = true := by
  unfold cleanupChoosesTarget at h
  rcases hsp : _sprint_tmpdir pol shared hostname access PATH_MAX job step task true with
    _ | ⟨s0, b0⟩
  · rw [hsp] at h
    exact absurd h (by simp)
  · rw [hsp] at h
    simp only [] at h
    split_ifs at h with h1 h2
    rw [Option.some.injEq] at h
    subst h
    exact ⟨b0, rfl, h1, h2⟩

/-- Inversion of the formatter for a pseudo-step with the host segment
ignored: the result is always the plain job-level path of the selected
base. -/
theorem sprint_pseudo_ignore_inv (pol : Policy) (shared hostname : String)
    (access : String → Bool) (cap job step task : Nat) (s0 b0 : String)
    (hstep : isPseudoStep step = true)
    (h : _sprint_tmpdir pol shared hostname access cap job step task true =
      some (s0, b0)) :
    s0 = job_dir_format b0 job ∧
      ∃ c fb, _get_base_tmpdir pol shared access = some (c, fb) ∧
        b0 = baseChoiceStr shared c := by
  rcases hbase : _get_base_tmpdir pol shared access with _ | ⟨c, fb⟩
  · rw [_sprint_tmpdir, hbase] at h
    exact absurd h (by simp)
  · rw [sprint_eq pol shared hostname access cap job step task true c fb hbase] at h
    simp only [hstep, eq_self_iff_true, or_true, if_true, ite_self] at h
    split_ifs at h with hlen
    rw [Option.some.injEq, Prod.mk.injEq] at h
    refine ⟨by rw [← h.1, ← h.2], c, fb, rfl, h.2.symm⟩

/-- Inversion of the formatter for a real step with per-step directories
enabled: the result is a step-level path (host-qualified or not) of the
selected base. -/
theorem sprint_real_inv (pol : Policy) (shared hostname : String)
    (access : String → Bool) (cap job step task : Nat) (ig : Bool) (s0 b0 : String)
    (hper : pol.should_create_per_step_tmpdirs = true)
    (hreal : isPseudoStep step = false)
    (h : _sprint_tmpdir pol shared hostname access cap job step task ig =
      some (s0, b0)) :
    (s0 = job_step_dir_format b0 job step task ∨
      s0 = pernode_job_step_dir_format b0 job (shortHostname hostname) step task) ∧
      ∃ c fb, _get_base_tmpdir pol shared access = some (c, fb) ∧
        b0 = baseChoiceStr shared c := by
  rcases hbase : _get_base_tmpdir pol shared access with _ | ⟨c, fb⟩
  · rw [_sprint_tmpdir, hbase] at h
    exact absurd h (by simp)
  · rw [sprint_eq pol shared hostname access cap job step task ig c fb hbase] at h
    simp only [hper, hreal, eq_self_iff_true, not_true, Bool.false_eq_true, false_or,
      or_self, if_false, or_false] at h
    by_cases hpn : c = BaseChoice.fromShared ∧ pol.should_add_pernode_on_shared = true
    · rw [if_pos hpn] at h
      split_ifs at h with hlen
      rw [Option.some.injEq, Prod.mk.injEq] at h
      exact ⟨Or.inr (by rw [← h.1, ← h.2]), c, fb, rfl, h.2.symm⟩
    · rw [if_neg hpn] at h
      split_ifs at h with hlen
      rw [Option.some.injEq, Prod.mk.injEq] at h
      exact ⟨Or.inl (by rw [← h.1, ← h.2]), c, fb, rfl, h.2.symm⟩

/-- C8: only the step/job-exit callback, and only when it fires for the
batch/extern pseudo-step, removes the job-level directory: the task-exit
callback skips batch/extern steps entirely, the job-exit callback takes no
removal action for a real step, every path the job-exit callback removes is
the job-level path of the selected base, and a path removed by the task-exit
callback is never the job-level path (it is step-scoped, for a genuine step,
with per-step directories enabled). -/
theorem claim_C8 (o : SetidOracle) (st : PrivState) (ju jg : Nat) (pol : Policy)
    (shared hostname : String) (access statDir : String → Bool) (remote : Bool)
    (job step task : Nat) :
    (step = SLURM_BATCH_SCRIPT ∨ step = SLURM_EXTERN_CONT →
      slurm_spank_task_exit o st ju jg pol shared hostname access statDir job step task =
        none) ∧
    (¬ (step = SLURM_BATCH_SCRIPT ∨ step = SLURM_EXTERN_CONT) →
      slurm_spank_exit remote o st ju jg pol shared hostname access statDir job step =
        none) ∧
    (∀ p, slurm_spank_exit remote o st ju jg pol shared hostname access statDir job step =
        some p →
      (step = SLURM_BATCH_SCRIPT ∨ step = SLURM_EXTERN_CONT) ∧
      ∃ c fb, _get_base_tmpdir pol shared access = some (c, fb) ∧
        p = job_dir_format (baseChoiceStr shared c) job) ∧
    (∀ p c fb, _get_base_tmpdir pol shared access = some (c, fb) →
      slurm_spank_task_exit o st ju jg pol shared hostname access statDir job step task =
        some p →
      p ≠ job_dir_format (baseChoiceStr shared c) job ∧
      ¬ (step = SLURM_BATCH_SCRIPT ∨ step = SLURM_EXTERN_CONT) ∧
      pol.should_create_per_step_tmpdirs = true) := by
  refine ⟨?_, ?_, ?_, ?_⟩
  · intro hstep
    have hne2 : ¬ (step ≠ SLURM_BATCH_SCRIPT ∧ step ≠ SLURM_EXTERN_CONT) := by
      rcases hstep with h | h <;> simp [h]
    unfold slurm_spank_task_exit
    by_cases hguard : pol.should_remove_tmpdir = true ∧
        pol.should_add_pernode_on_shared = true
    · rw [if_pos hguard, if_neg hne2]
    · rw [if_neg hguard]
  · intro hstep
    unfold slurm_spank_exit
    by_cases hguard : pol.should_remove_tmpdir = true ∧ remote = true
    · rw [if_pos hguard, if_neg hstep]
    · rw [if_neg hguard]
  · intro p h
    unfold slurm_spank_exit at h
    by_cases hguard : pol.should_remove_tmpdir = true ∧ remote = true
    case neg =>
      rw [if_neg hguard] at h
      exact absurd h (by simp)
    rw [if_pos hguard] at h
    by_cases hse : step = SLURM_BATCH_SCRIPT ∨ step = SLURM_EXTERN_CONT
    case neg =>
      rw [if_neg hse] at h
      exact absurd h (by simp)
    rw [if_pos hse] at h
    obtain ⟨b0, hsp, hcond, hstat⟩ :=
      cleanupTarget_inv pol shared hostname access statDir job step SLURM_BATCH_SCRIPT p
        (removalTarget_eq_some o st ju jg pol shared hostname access statDir
          job step SLURM_BATCH_SCRIPT p h)
    have hps : isPseudoStep step = true := by
      rcases hse with h2 | h2 <;> simp [isPseudoStep, h2]
    obtain ⟨hs0, c, fb, hbase, hb0⟩ :=
      sprint_pseudo_ignore_inv pol shared hostname access PATH_MAX job step
        SLURM_BATCH_SCRIPT p b0 hps hsp
    exact ⟨hse, c, fb, hbase, by rw [hs0, hb0]⟩
  · intro p c fb hbase h
    unfold slurm_spank_task_exit at h
    by_cases hguard : pol.should_remove_tmpdir = true ∧
        pol.should_add_pernode_on_shared = true
    case neg =>
      rw [if_neg hguard] at h
      exact absurd h (by simp)
    rw [if_pos hguard] at h
    by_cases hne : step ≠ SLURM_BATCH_SCRIPT ∧ step ≠ SLURM_EXTERN_CONT
    case neg =>
      rw [if_neg hne] at h
      exact absurd h (by simp)
    rw [if_pos hne] at h
    obtain ⟨b0, hsp, hcond, hstat⟩ :=
      cleanupTarget_inv pol shared hostname access statDir job step task p
        (removalTarget_eq_some o st ju jg pol shared hostname access statDir
          job step task p h)
    have hreal : isPseudoStep step = false := by
      simp [isPseudoStep, hne.1, hne.2]
    have hper : pol.should_create_per_step_tmpdirs = true := by
      rcases hcond with h2 | h2 | h2
      · exact h2
      · exact absurd h2 hne.1
      · exact absurd h2 hne.2
    obtain ⟨hshape, c2, fb2, hbase2, hb0⟩ :=
      sprint_real_inv pol shared hostname access PATH_MAX job step task true p b0
        hper hreal hsp
    rw [hbase, Option.some.injEq, Prod.mk.injEq] at hbase2
    rw [← hbase2.1] at hb0
    refine ⟨?_, ?_, hper⟩
    · rcases hshape with h2 | h2
      · rw [h2, hb0]
        exact step_dir_ne_job_dir _ job step task
      · rw [h2, hb0]
        exact pernode_step_dir_ne_job_dir _ job (shortHostname hostname) step task
    · intro h3
      rcases h3 with h3 | h3
      · exact absurd h3 hne.1
      · exact absurd h3 hne.2

/-- Witness for C8: the task-exit callback takes no action for the batch
pseudo-step, and the job-exit callback takes no action for a real step. -/
theorem claim_C8_witness :
    slurm_spank_task_exit setidAllOk (PrivState.mk 0 0) 501 501
        (Policy.mk none true true true true) "/lustre" "node07" (fun _ => true)
        (fun _ => true) 100 SLURM_BATCH_SCRIPT 0 = none ∧
    slurm_spank_exit true setidAllOk (PrivState.mk 0 0) 501 501
        (Policy.mk none true true true true) "/lustre" "node07" (fun _ => true)
        (fun _ => true) 100 7 = none :=
  ⟨(claim_C8 setidAllOk (PrivState.mk 0 0) 501 501 (Policy.mk none true true true true)
      "/lustre" "node07" (fun _ => true) (fun _ => true) true 100 SLURM_BATCH_SCRIPT
      0).1 (Or.inl rfl),
    (claim_C8 setidAllOk (PrivState.mk 0 0) 501 501 (Policy.mk none true true true true)
      "/lustre" "node07" (fun _ => true) (fun _ => true) true 100 7 0).2.1 (by decide)⟩

/-- The formatted job-level path has positive length. -/
theorem job_dir_format_len_pos (b : String) (j : Nat) : 0 < (job_dir_format b j).length := by
  have h5 : ("/job_" : String).length = 5 := rfl
  simp only [job_dir_format, String.length_append]
  omega

/-- The formatted host-qualified step-level path has positive length. -/
theorem pernode_step_format_len_pos (b : String) (j : Nat) (host : String) (s t : Nat) :
    0 < (pernode_job_step_dir_format b j host s t).length := by
  have h5 : ("/job_" : String).length = 5 := rfl
  simp only [pernode_job_step_dir_format, String.length_append]
  omega

/-- C10: the cleanup path is always formatted with the per-node host segment
ignored, and that flag only affects job-level paths: (a) for a real step with
per-step directories enabled the formatter output does not depend on the
flag; (b) under shared storage with per-node mode, batch/extern job-exit
cleanup removes `{base}/job_{job_id}` — the parent of every per-node host
subdirectory; (c) task-exit cleanup of a real step still removes the
host-qualified step path
`{base}/job_{job_id}/{short_hostname}/step_{step_id}.{task_id}`. -/
theorem claim_C10 (o : SetidOracle) (st : PrivState) (ju jg : Nat) (pol : Policy)
    (shared hostname : String) (access statDir : String → Bool) (job step task : Nat) :
    (pol.should_create_per_step_tmpdirs = true → isPseudoStep step = false →
      ∀ cap ig1 ig2,
        _sprint_tmpdir pol shared hostname access cap job step task ig1 =
          _sprint_tmpdir pol shared hostname access cap job step task ig2) ∧
    ((∀ u, o.uidOk u = true) → (∀ g, o.gidOk g = true) → (∀ q, statDir q = true) →
      pol.should_remove_tmpdir = true → pol.base_tmpdir = none →
      pol.should_create_on_shared = true → pol.should_add_pernode_on_shared = true →
      access shared = true →
      (step = SLURM_BATCH_SCRIPT ∨ step = SLURM_EXTERN_CONT) →
      (job_dir_format shared job).length < PATH_MAX →
      slurm_spank_exit true o st ju jg pol shared hostname access statDir job step =
        some (shared ++ "/job_" ++ Nat.repr job)) ∧
    ((∀ u, o.uidOk u = true) → (∀ g, o.gidOk g = true) → (∀ q, statDir q = true) →
      pol.should_remove_tmpdir = true → pol.base_tmpdir = none →
      pol.should_create_on_shared = true → pol.should_add_pernode_on_shared = true →
      pol.should_create_per_step_tmpdirs = true → access shared = true →
      (step ≠ SLURM_BATCH_SCRIPT ∧ step ≠ SLURM_EXTERN_CONT) →
      (pernode_job_step_dir_format shared job (shortHostname hostname) step task).length <
        PATH_MAX →
      slurm_spank_task_exit o st ju jg pol shared hostname access statDir job step task =
        some (shared ++ "/job_" ++ Nat.repr job ++ "/" ++ shortHostname hostname ++
          "/step_" ++ Nat.repr step ++ "." ++ Nat.repr task)) := by
  refine ⟨?_, ?_, ?_⟩
  · intro hper hreal cap ig1 ig2
    rcases hbase : _get_base_tmpdir pol shared access with _ | ⟨c, fb⟩
    · rw [_sprint_tmpdir, hbase, _sprint_tmpdir, hbase]
    · rw [sprint_eq pol shared hostname access cap job step task ig1 c fb hbase,
        sprint_eq pol shared hostname access cap job step task ig2 c fb hbase]
      simp [hper, hreal]
  · intro hu hgd hstat hrem hb0 hsh hpn hacc hse hlen
    have hbase : _get_base_tmpdir pol shared access =
        some (BaseChoice.fromShared, false) := by
      unfold _get_base_tmpdir
      rw [hb0]
      simp [hsh, hacc]
    have hps : isPseudoStep step = true := by
      rcases hse with h2 | h2 <;> simp [isPseudoStep, h2]
    have h5 : ("/job_" : String).length = 5 := rfl
    have hlen2 := hlen
    simp only [job_dir_format, String.length_append] at hlen2
    have hsp : _sprint_tmpdir pol shared hostname access PATH_MAX job step
        SLURM_BATCH_SCRIPT true = some (job_dir_format shared job, shared) := by
      rw [sprint_eq pol shared hostname access PATH_MAX job step SLURM_BATCH_SCRIPT true
        BaseChoice.fromShared false hbase]
      simp [baseChoiceStr, hps, hpn, job_dir_format, pernode_job_dir_format,
        job_step_dir_format, pernode_job_step_dir_format]
      omega
    unfold slurm_spank_exit __cleanup_tmpdir
    rw [if_pos ⟨hrem, rfl⟩, if_pos hse,
      removalTarget_allok o hu hgd st ju jg _]
    unfold cleanupChoosesTarget
    rw [hsp]
    simp only []
    rw [if_pos (Or.inr hse : pol.should_create_per_step_tmpdirs = true ∨
      step = SLURM_BATCH_SCRIPT ∨ step = SLURM_EXTERN_CONT)]
    rw [hstat]
    simp [job_dir_format]
  · intro hu hgd hstat hrem hb0 hsh hpn hper hacc hne hlen
    have hbase : _get_base_tmpdir pol shared access =
        some (BaseChoice.fromShared, false) := by
      unfold _get_base_tmpdir
      rw [hb0]
      simp [hsh, hacc]
    have hreal : isPseudoStep step = false := by
      simp [isPseudoStep, hne.1, hne.2]
    have h5 : ("/job_" : String).length = 5 := rfl
    have hlen2 := hlen
    simp only [pernode_job_step_dir_format, String.length_append] at hlen2
    have hsp : _sprint_tmpdir pol shared hostname access PATH_MAX job step task true =
        some (pernode_job_step_dir_format shared job (shortHostname hostname) step task,
          shared) := by
      rw [sprint_eq pol shared hostname access PATH_MAX job step task true
        BaseChoice.fromShared false hbase]
      simp [baseChoiceStr, hper, hreal, hpn, job_dir_format, pernode_job_dir_format,
        job_step_dir_format, pernode_job_step_dir_format]
      omega
    unfold slurm_spank_task_exit __cleanup_tmpdir
    rw [if_pos ⟨hrem, hpn⟩, if_pos hne,
      removalTarget_allok o hu hgd st ju jg _]
    unfold cleanupChoosesTarget
    rw [hsp]
    simp only []
    rw [if_pos (Or.inl hper : pol.should_create_per_step_tmpdirs = true ∨
      step = SLURM_BATCH_SCRIPT ∨ step = SLURM_EXTERN_CONT)]
    rw [hstat]
    simp [pernode_job_step_dir_format]

/-- Witness for C10: under shared storage with per-node mode, job-exit
cleanup for the batch step removes the plain job directory while task-exit
cleanup of real step 3 removes the host-qualified step directory. -/
theorem claim_C10_witness :
    slurm_spank_exit true setidAllOk (PrivState.mk 0 0) 501 501
        (Policy.mk none true true true true) "/lustre" "node07.cluster.example"
        (fun _ => true) (fun _ => true) 100 SLURM_BATCH_SCRIPT =
      some "/lustre/job_100" ∧
    slurm_spank_task_exit setidAllOk (PrivState.mk 0 0) 501 501
        (Policy.mk none true true true true) "/lustre" "node07.cluster.example"
        (fun _ => true) (fun _ => true) 100 3 2 =
      some "/lustre/job_100/node07/step_3.2" :=
  ⟨(claim_C10 setidAllOk (PrivState.mk 0 0) 501 501 (Policy.mk none true true true true)
      "/lustre" "node07.cluster.example" (fun _ => true) (fun _ => true) 100
      SLURM_BATCH_SCRIPT 0).2.1 (fun _ => rfl) (fun _ => rfl) (fun _ => rfl) rfl rfl rfl
      rfl rfl (Or.inl rfl) (by decide),
    (claim_C10 setidAllOk (PrivState.mk 0 0) 501 501 (Policy.mk none true true true true)
      "/lustre" "node07.cluster.example" (fun _ => true) (fun _ => true) 100 3
      2).2.2 (fun _ => rfl) (fun _ => rfl) (fun _ => rfl) rfl rfl rfl rfl rfl rfl
      (by decide) (by decide)⟩

end AutoTmpdir
